import Mathlib

/-!
Shallow embedding of the connection runtime of `amqprs`
(`src/amqprs/src/api/connection.rs`), together with proofs about it.

The embedding translates the façade code of `Connection` (open handshake,
`open_channel`, `close`, `register_callback`, `register_responder`,
`register_channel_resource`, `set_open_state` / `get_open_state`, and the
`Drop` implementation) into pure Lean functions.  Stateful code is modelled
by explicit state passing on a `ConnState` record; the frames and management
commands a call emits are collected in an event trace.  Parts of the
repository that the claims depend on but that are not part of the connection
module (the frame module defaults, the reader-side registry handling, the
error enumeration, the `synchronous_request!` macro) are modelled from the
specification and marked as such in their doc comments.
-/

namespace Amqprs

/-- Fields of the server `Connection.Tune` method frame
(`channel_max`, `frame_max`, `heartbeat`).  Machine integers (`u16`, `u32`,
`u16`) are modelled as `Nat`; no arithmetic in the modelled code can
overflow them. -/
structure Tune where
  channel_max : Nat
  frame_max : Nat
  heartbeat : Nat
deriving DecidableEq

/-- Fields of the client `Connection.TuneOk` method frame. -/
structure TuneOk where
  channel_max : Nat
  frame_max : Nat
  heartbeat : Nat
deriving DecidableEq

/-- Modelled from the spec: `TuneOk::default()` lives in the frame module,
which is not under `src/`.  The spec gives the tuning defaults
`channel_max=2047`, `frame_max=131072`, `heartbeat=60`. -/
def TuneOk.default : TuneOk :=
  { channel_max := 2047, frame_max := 131072, heartbeat := 60 }

/-- The `TuneOk` value computed by `Connection::open`
(`connection.rs` lines 94-97): start from `TuneOk::default()` and then
overwrite every field with the value proposed by the server. -/
def mkTuneOk (tune : Tune) : TuneOk :=
  let tune_ok := TuneOk.default
  { tune_ok with
    channel_max := tune.channel_max
    frame_max := tune.frame_max
    heartbeat := tune.heartbeat }

/-- Negotiation of one tuning field as the SPEC words it (for comparison
with the code, which is embedded in `mkTuneOk`): the smaller of server
proposal and client preference, where a zero from either side means the
other side wins. -/
def specNegotiateField (server client : Nat) : Nat :=
  if server = 0 then client
  else if client = 0 then server
  else min server client

/-- The `TuneOk` the SPEC asks for (for comparison with `mkTuneOk`): each
field negotiated by `specNegotiateField` against the client preference,
which is `TuneOk.default` since `Connection::open` takes no tuning
preferences. -/
def specTuneOk (tune : Tune) : TuneOk :=
  { channel_max := specNegotiateField tune.channel_max TuneOk.default.channel_max
    frame_max := specNegotiateField tune.frame_max TuneOk.default.frame_max
    heartbeat := specNegotiateField tune.heartbeat TuneOk.default.heartbeat }

/-- The error values relevant to the connection façade.
`connectionOpenError`, `channelOpenError` and `connectionCloseError` are
constructed literally in `connection.rs`.  The remaining constructors are
modelled from the spec error taxonomy (section 7), which is realised by an
error module that is not under `src/`: `sendError` for a send on an internal
queue whose receiver is gone, `noFreeChannel` for exhausted channel-id
allocation, `connectionClosed` for a connection-scoped close error. -/
inductive Err where
  | connectionOpenError (s : String)
  | channelOpenError (s : String)
  | connectionCloseError (s : String)
  | sendError (s : String)
  | noFreeChannel
  | connectionClosed (s : String)
deriving DecidableEq

/-- Frames read from the server during the handshake. -/
inductive RFrame where
  | start
  | secure
  | tune (t : Tune)
  | openOk
  | other
deriving DecidableEq

/-- Frames written by the client. -/
inductive WFrame where
  | protocolHeader
  | startOk
  | tuneOk (t : TuneOk)
  | secureOk
  | openFrame
  | close
  | openChannel
deriving DecidableEq

/-- The opening handshake of `Connection::open` (`connection.rs` lines
65-115), as a function of the stream of frames the server sends: write the
protocol header, read `Start`, write `StartOk`, read the next frame which
must be `Tune` (any other frame fails with `ConnectionOpenError "tune"`),
write `TuneOk`, write `Open`, read `OpenOk`.  Returns the outcome together
with the list of frames written up to that point. -/
def openHandshake (input : List RFrame) : Except Err TuneOk × List WFrame :=
  match input with
  | RFrame.start :: rest =>
    match rest with
    | RFrame.tune t :: rest2 =>
      let tune_ok := mkTuneOk t
      match rest2 with
      | RFrame.openOk :: _ =>
        (Except.ok tune_ok,
         [WFrame.protocolHeader, WFrame.startOk, WFrame.tuneOk tune_ok, WFrame.openFrame])
      | _ =>
        (Except.error (Err.connectionOpenError "open"),
         [WFrame.protocolHeader, WFrame.startOk, WFrame.tuneOk tune_ok, WFrame.openFrame])
    | _ =>
      (Except.error (Err.connectionOpenError "tune"),
       [WFrame.protocolHeader, WFrame.startOk])
  | _ =>
    (Except.error (Err.connectionOpenError "start"), [WFrame.protocolHeader])

/-- A method key `(class_id, method_id)`, the routing key of RPC waiters
(`MethodHeader` in the frame module). -/
structure MethodKey where
  class_id : Nat
  method_id : Nat
deriving DecidableEq

/-- Modelled from the spec: `CloseOk::header()` comes from the frame module,
not under `src/`; in AMQP 0-9-1 it is class 10 (connection), method 51
(close-ok). -/
def closeOkKey : MethodKey := { class_id := 10, method_id := 51 }

/-- Modelled from the spec: `OpenChannelOk::header()` comes from the frame
module, not under `src/`; in AMQP 0-9-1 it is class 20 (channel), method 11
(open-ok). -/
def openChannelOkKey : MethodKey := { class_id := 20, method_id := 11 }

/-- A `ChannelResource` as registered through the management queue:
the keys of the pending RPC waiters, and the optional dispatcher sender
(`Option Unit`: only its presence matters to the model). -/
structure ChannelResource where
  responders : List MethodKey
  dispatcher : Option Unit
deriving DecidableEq

/-- The connection state visible to the façade together with the registry
owned by the reader task.  `runtime_alive` models whether the reader and
writer tasks are still running, i.e. whether the internal queues still have
their receiving ends. -/
structure ConnState where
  channel_max : Nat
  is_open : Bool
  runtime_alive : Bool
  channels : List (Nat × ChannelResource)
  next_id : Nat
deriving DecidableEq

/-- Events emitted by façade calls: management commands with their acks,
frames put on the outgoing queue, and responses received on a waiter slot. -/
inductive Ev where
  | cmdRegisterResource (cid : Option Nat) (r : ChannelResource)
  | ackResource (cid : Option Nat)
  | cmdRegisterResponder (cid : Nat) (k : MethodKey)
  | ackResponder (cid : Nat) (k : MethodKey)
  | cmdRegisterCallback
  | sendFrame (cid : Nat) (f : WFrame)
  | recvResponse (cid : Nat)
deriving DecidableEq

/-- Look up a channel id in the registry association list. -/
def lookupChannel (chs : List (Nat × ChannelResource)) (c : Nat) :
    Option ChannelResource :=
  (chs.find? (fun p => p.1 = c)).map Prod.snd

/-- Modelled from the spec: reader-side handling of `RegisterResponder`
(section 4.3), which attaches the waiter to the resource of the target
channel; a missing channel or a duplicate key leaves the registry
unchanged. -/
def attachResponder (chs : List (Nat × ChannelResource)) (cid : Nat)
    (k : MethodKey) : List (Nat × ChannelResource) :=
  chs.map (fun p =>
    if p.1 = cid ∧ ¬ k ∈ p.2.responders then
      (p.1, { responders := k :: p.2.responders, dispatcher := p.2.dispatcher })
    else p)

/-- Modelled from the spec: channel-id allocation (section 4.4) scans
`next_id..=channel_max` and then `1..next_id` for the first id that is not
occupied. -/
def allocChannelId (occupied : List Nat) (next_id channel_max : Nat) :
    Option Nat :=
  (List.range' next_id (channel_max + 1 - next_id) ++
    List.range' 1 (next_id - 1)).find? (fun i => ¬ i ∈ occupied)

/-- Modelled from the spec: after allocating id `found`, `next_id` becomes
`found + 1` modulo `channel_max + 1`, clamped to at least 1 (section 4.4). -/
def nextIdAfter (found channel_max : Nat) : Nat :=
  max 1 ((found + 1) % (channel_max + 1))

/-- `Connection::register_responder` (`connection.rs` lines 152-171): send a
`RegisterResponder` management command and await its ack.  The façade
ignores the payload of the ack, so the call succeeds whenever the runtime is
alive; the reader-side registry effect is `attachResponder`. -/
def register_responder (s : ConnState) (cid : Nat) (k : MethodKey) :
    Except Err Unit × ConnState × List Ev :=
  if s.runtime_alive then
    (Except.ok (), { s with channels := attachResponder s.channels cid k },
     [Ev.cmdRegisterResponder cid k, Ev.ackResponder cid k])
  else
    (Except.error (Err.sendError "conn_mgmt_tx"), s, [])

/-- `Connection::register_callback` (`connection.rs` lines 173-185): send a
`RegisterConnectionCallback` management command; succeed iff the send
succeeds.  There is no check of `is_open`. -/
def register_callback (s : ConnState) : Except Err Unit × ConnState × List Ev :=
  if s.runtime_alive then
    (Except.ok (), s, [Ev.cmdRegisterCallback])
  else
    (Except.error (Err.sendError "conn_mgmt_tx"), s, [])

/-- `Connection::set_open_state` (`connection.rs` lines 187-189): a public
method storing an arbitrary boolean into the shared `is_open` flag. -/
def set_open_state (s : ConnState) (b : Bool) : ConnState :=
  { s with is_open := b }

/-- `Connection::get_open_state` (`connection.rs` lines 190-192). -/
def get_open_state (s : ConnState) : Bool :=
  s.is_open

/-- `Connection::register_channel_resource` (`connection.rs` lines 211-243):
send a `RegisterChannelResource` management command and await the allocated
id in the ack; `none` on send failure or failed allocation.  The reader-side
registry effect (insert exactly at the given id failing if occupied, or
allocate the next free id) is modelled from the spec, section 4.3. -/
def register_channel_resource (s : ConnState) (cid : Option Nat)
    (r : ChannelResource) : Option Nat × ConnState × List Ev :=
  if s.runtime_alive then
    match cid with
    | some c =>
      if lookupChannel s.channels c = none then
        (some c, { s with channels := (c, r) :: s.channels },
         [Ev.cmdRegisterResource cid r, Ev.ackResource (some c)])
      else
        (none, s, [Ev.cmdRegisterResource cid r, Ev.ackResource none])
    | none =>
      match allocChannelId (s.channels.map Prod.fst) s.next_id s.channel_max with
      | some c =>
        (some c, { s with channels := (c, r) :: s.channels,
                          next_id := nextIdAfter c s.channel_max },
         [Ev.cmdRegisterResource cid r, Ev.ackResource (some c)])
      | none => (none, s, [Ev.cmdRegisterResource cid r, Ev.ackResource none])
  else (none, s, [])

/-- Modelled from the spec: the `synchronous_request!` macro (section 4.6,
not under `src/`): enqueue the request frame, then await the registered
responder slot.  The server is assumed well behaved, so while the runtime is
alive the expected response arrives; when the runtime is gone the enqueue
fails. -/
def syncRequest (s : ConnState) (cid : Nat) (f : WFrame) :
    Except Err Unit × ConnState × List Ev :=
  if s.runtime_alive then
    (Except.ok (), s, [Ev.sendFrame cid f, Ev.recvResponse cid])
  else
    (Except.error (Err.sendError "outgoing_tx"), s, [])

/-- `Connection::close` (`connection.rs` lines 194-209): register a waiter
for `Connection.CloseOk` on channel 0, issue the `Connection.Close` request
synchronously, then store `false` into `is_open`.  There is no check of
`is_open` before doing this.  That the runtime shuts down once the close
handshake completes is modelled from the spec, section 5 (graceful
shutdown). -/
def close (s : ConnState) : Except Err Unit × ConnState × List Ev :=
  match register_responder s 0 closeOkKey with
  | (Except.error e, s1, tr1) => (Except.error e, s1, tr1)
  | (Except.ok _, s1, tr1) =>
    match syncRequest s1 0 WFrame.close with
    | (Except.error e, s2, tr2) => (Except.error e, s2, tr1 ++ tr2)
    | (Except.ok _, s2, tr2) =>
      (Except.ok (),
       { s2 with is_open := false, runtime_alive := false }, tr1 ++ tr2)

/-- The resource `Connection::open` registers for the default channel 0
(`connection.rs` lines 135-147): empty responder map, no dispatcher. -/
def defaultChannelResource : ChannelResource :=
  { responders := [], dispatcher := none }

/-- The state `Connection::open` builds after the handshake
(`connection.rs` lines 117-149): `channel_max` from the negotiated `TuneOk`,
`is_open` initially true, tasks spawned, then channel 0 registered; failure
to register yields `ConnectionOpenError`. -/
def openConn (channel_max : Nat) : Except Err ConnState :=
  let s : ConnState :=
    { channel_max := channel_max, is_open := true, runtime_alive := true,
      channels := [], next_id := 1 }
  match register_channel_resource s (some 0) defaultChannelResource with
  | (some _, s1, _) => Except.ok s1
  | (none, _, _) =>
    Except.error (Err.connectionOpenError "Failed to register channel resource")

/-- The resource `Connection::open_channel` registers (`connection.rs` lines
286-297): empty responder map and the dispatcher sender present. -/
def openChannelResource : ChannelResource :=
  { responders := [], dispatcher := some () }

/-- `Connection::open_channel` (`connection.rs` lines 281-323): allocate a
channel id by registering a resource carrying the dispatcher sender, then
register a responder for `Channel.OpenOk` on the allocated id, then issue
the `Channel.Open` request synchronously and return the channel. -/
def open_channel (s : ConnState) : Except Err Nat × ConnState × List Ev :=
  match register_channel_resource s none openChannelResource with
  | (none, s1, tr1) =>
    (Except.error (Err.channelOpenError "Failed to register channel resource"),
     s1, tr1)
  | (some channel_id, s1, tr1) =>
    match register_responder s1 channel_id openChannelOkKey with
    | (Except.error e, s2, tr2) => (Except.error e, s2, tr1 ++ tr2)
    | (Except.ok _, s2, tr2) =>
      match syncRequest s2 channel_id WFrame.openChannel with
      | (Except.error e, s3, tr3) => (Except.error e, s3, tr1 ++ tr2 ++ tr3)
      | (Except.ok _, s3, tr3) => (Except.ok channel_id, s3, tr1 ++ tr2 ++ tr3)

/-- The `Drop` implementation for `Connection` (`connection.rs` lines
326-338): it runs for every dropped handle; if the shared `is_open` flag is
true it stores `false` and spawns a detached task running `close`.  Returns
the new shared state and whether a close task was spawned. -/
def dropHandle (s : ConnState) : ConnState × Bool :=
  if s.is_open then ({ s with is_open := false }, true) else (s, false)

/-- One drop among `liveClones` live handles: `Drop::drop` never inspects
the clone count, so the count only decreases. -/
def dropClone (s : ConnState) (liveClones : Nat) : ConnState × Nat × Bool :=
  ((dropHandle s).1, liveClones - 1, (dropHandle s).2)

/-- Drop `n` handles of the same connection one after another, counting how
many of the drops spawned a detached close task. -/
def dropAll : Nat → ConnState → ConnState × Nat
  | 0, s => (s, 0)
  | n + 1, s =>
    ((dropAll n (dropHandle s).1).1,
     (if (dropHandle s).2 then 1 else 0) + (dropAll n (dropHandle s).1).2)

/-- A fixed state right after a successful `Connection::open` with the
default `channel_max` 2047, used as concrete input in witnesses. -/
def openedState : ConnState :=
  { channel_max := 2047, is_open := true, runtime_alive := true,
    channels := [(0, defaultChannelResource)], next_id := 1 }

/-- The `openedState` after its `is_open` flag has been cleared (for
instance by `set_open_state` or by a handle drop) while the runtime is still
alive. -/
def droppedState : ConnState := set_open_state openedState false

/-- Whether an error value is of the `ConnectionClosed` kind. -/
def isConnectionClosedErr : Err → Bool
  | Err.connectionClosed _ => true
  | _ => false

/-- A state whose registry already holds `channel_max` user channels
(here `channel_max = 1`, with channel 1 taken), so that channel-id
allocation can find no free slot. -/
def fullState : ConnState :=
  { channel_max := 1, is_open := true, runtime_alive := true,
    channels := [(1, openChannelResource), (0, defaultChannelResource)],
    next_id := 1 }

/-- The registry invariant of claim C9: a resource without a dispatcher can
only be registered under channel id 0. -/
def dispNoneOnlyZero (s : ConnState) : Prop :=
  ∀ c r, (c, r) ∈ s.channels → r.dispatcher = none → c = 0

/-- Whether the result of `open_channel` is specifically a `NoFreeChannel`
error. -/
def isNoFreeChannelResult : Except Err Nat → Bool
  | Except.error Err.noFreeChannel => true
  | _ => false

/-- Characterization of `close` by whether the runtime is alive. -/
lemma close_spec (s : ConnState) :
    close s =
      if s.runtime_alive then
        (Except.ok (),
         { s with channels := attachResponder s.channels 0 closeOkKey,
                  is_open := false, runtime_alive := false },
         [Ev.cmdRegisterResponder 0 closeOkKey, Ev.ackResponder 0 closeOkKey,
          Ev.sendFrame 0 WFrame.close, Ev.recvResponse 0])
      else (Except.error (Err.sendError "conn_mgmt_tx"), s, []) := by
  unfold close register_responder syncRequest
  cases h : s.runtime_alive <;> simp [h]

/-- Characterization of `open_channel` by runtime liveness and the result
of channel-id allocation. -/
lemma open_channel_spec (s : ConnState) :
    open_channel s =
      if s.runtime_alive then
        match allocChannelId (s.channels.map Prod.fst) s.next_id s.channel_max with
        | none =>
          (Except.error (Err.channelOpenError "Failed to register channel resource"),
           s, [Ev.cmdRegisterResource none openChannelResource, Ev.ackResource none])
        | some c =>
          (Except.ok c,
           { s with
             channels :=
               attachResponder ((c, openChannelResource) :: s.channels) c
                 openChannelOkKey,
             next_id := nextIdAfter c s.channel_max },
           [Ev.cmdRegisterResource none openChannelResource,
            Ev.ackResource (some c),
            Ev.cmdRegisterResponder c openChannelOkKey,
            Ev.ackResponder c openChannelOkKey,
            Ev.sendFrame c WFrame.openChannel, Ev.recvResponse c])
      else
        (Except.error (Err.channelOpenError "Failed to register channel resource"),
         s, []) := by
  unfold open_channel register_channel_resource register_responder syncRequest
  cases h : s.runtime_alive
  · simp [h]
  · simp only [h, if_true, reduceIte]
    cases halloc :
        allocChannelId (s.channels.map Prod.fst) s.next_id s.channel_max <;>
      simp [halloc]

/-- `open_channel` never changes the `is_open` flag. -/
lemma open_channel_is_open (s : ConnState) :
    (open_channel s).2.1.is_open = s.is_open := by
  rw [open_channel_spec]
  cases h : s.runtime_alive
  · simp
  · simp only [if_true, reduceIte]
    cases halloc :
        allocChannelId (s.channels.map Prod.fst) s.next_id s.channel_max <;>
      simp

/-- Membership in `attachResponder` output: the entry comes from an entry
of the input registry with the same channel id and the same dispatcher. -/
lemma mem_attachResponder (chs : List (Nat × ChannelResource)) (cid : Nat)
    (k : MethodKey) (c : Nat) (r : ChannelResource)
    (h : (c, r) ∈ attachResponder chs cid k) :
    ∃ r0, (c, r0) ∈ chs ∧ r.dispatcher = r0.dispatcher := by
  unfold attachResponder at h
  rcases List.mem_map.1 h with ⟨p, hp, heq⟩
  by_cases hc : p.1 = cid ∧ ¬ k ∈ p.2.responders
  · rw [if_pos hc] at heq
    refine ⟨p.2, ?_, ?_⟩
    · have : (p.1, p.2) ∈ chs := by simpa using hp
      have hcfst : p.1 = c := congrArg Prod.fst heq
      rwa [hcfst] at this
    · have := congrArg Prod.snd heq
      simp at this
      rw [← this]
  · rw [if_neg hc] at heq
    refine ⟨r, ?_, rfl⟩
    rwa [heq] at hp

/-- The candidate list scanned by `allocChannelId` contains exactly the ids
`1..=channel_max`, provided `next_id` lies in that interval. -/
lemma mem_allocRange (next_id channel_max i : Nat) (h1 : 1 ≤ next_id)
    (h2 : next_id ≤ channel_max) :
    (i ∈ List.range' next_id (channel_max + 1 - next_id) ++
        List.range' 1 (next_id - 1)) ↔ (1 ≤ i ∧ i ≤ channel_max) := by
  simp only [List.mem_append, List.mem_range'_1]
  omega

/-- Channel-id allocation fails exactly when every id of `1..=channel_max`
is occupied. -/
lemma allocChannelId_eq_none_iff (occupied : List Nat)
    (next_id channel_max : Nat) (h1 : 1 ≤ next_id)
    (h2 : next_id ≤ channel_max) :
    allocChannelId occupied next_id channel_max = none ↔
      ∀ i ∈ Finset.Icc 1 channel_max, i ∈ occupied := by
  unfold allocChannelId
  rw [List.find?_eq_none]
  constructor
  · intro h i hi
    rcases Finset.mem_Icc.1 hi with ⟨hi1, hi2⟩
    have hmem := (mem_allocRange next_id channel_max i h1 h2).2 ⟨hi1, hi2⟩
    have := h i hmem
    simpa using this
  · intro h i hmem
    have hi := (mem_allocRange next_id channel_max i h1 h2).1 hmem
    have := h i (Finset.mem_Icc.2 hi)
    simp [this]

/-- For a live runtime, the result of `open_channel` is determined by
channel-id allocation. -/
lemma open_channel_fst (s : ConnState) (h : s.runtime_alive = true) :
    (open_channel s).1 =
      match allocChannelId (s.channels.map Prod.fst) s.next_id s.channel_max with
      | none =>
        Except.error (Err.channelOpenError "Failed to register channel resource")
      | some c => Except.ok c := by
  rw [open_channel_spec, h]
  cases halloc :
      allocChannelId (s.channels.map Prod.fst) s.next_id s.channel_max <;>
    simp [halloc]

/-- `Connection::open` with negotiated `channel_max` always reaches the
same state: channel 0 registered with the default resource. -/
lemma openConn_eq (cm : Nat) :
    openConn cm = Except.ok
      { channel_max := cm, is_open := true, runtime_alive := true,
        channels := [(0, defaultChannelResource)], next_id := 1 } := rfl

/-- Dropping at least one handle clears `is_open`, and the total number of
spawned close tasks over the whole drop sequence is 1 when the flag was set
and 0 otherwise. -/
lemma dropAll_succ (n : Nat) (s : ConnState) :
    dropAll (n + 1) s =
      ({ s with is_open := false }, if s.is_open then 1 else 0) := by
  induction n generalizing s with
  | zero =>
    rcases s with ⟨cm, io, ra, chs, ni⟩
    cases io <;> simp [dropAll, dropHandle]
  | succ n ih =>
    have hstep : dropAll (n + 1 + 1) s =
        ((dropAll (n + 1) (dropHandle s).1).1,
         (if (dropHandle s).2 then 1 else 0) +
           (dropAll (n + 1) (dropHandle s).1).2) := rfl
    rw [hstep, ih]
    rcases s with ⟨cm, io, ra, chs, ni⟩
    cases io <;> simp [dropHandle]

/-- CLAIM C1 (counterexample).  The claim says the `TuneOk` sent by
`Connection::open` negotiates each field as the minimum of server proposal
and client preference with defaults on zero.  At the server proposal
`Tune{0,0,0}` the negotiated triple would be `(2047, 131072, 60)`, but the
code writes `TuneOk{0,0,0}`: the handshake echoes the server values
verbatim. -/
theorem C1_counterexample :
    specTuneOk { channel_max := 0, frame_max := 0, heartbeat := 0 } =
      { channel_max := 2047, frame_max := 131072, heartbeat := 60 } ∧
    mkTuneOk { channel_max := 0, frame_max := 0, heartbeat := 0 } =
      { channel_max := 0, frame_max := 0, heartbeat := 0 } ∧
    (openHandshake [RFrame.start,
      RFrame.tune { channel_max := 0, frame_max := 0, heartbeat := 0 },
      RFrame.openOk]).2 =
      [WFrame.protocolHeader, WFrame.startOk,
       WFrame.tuneOk { channel_max := 0, frame_max := 0, heartbeat := 0 },
       WFrame.openFrame] := by
  decide

/-- CLAIM C1 (amended).  Whatever `Tune` the server proposes, the `TuneOk`
frame written by `Connection::open` carries exactly the server values for
`channel_max`, `frame_max` and `heartbeat`, with no minimum taken against a
client preference and no defaults applied. -/
theorem C1_amended (t : Tune) (rest : List RFrame) :
    WFrame.tuneOk
        { channel_max := t.channel_max, frame_max := t.frame_max,
          heartbeat := t.heartbeat } ∈
      (openHandshake (RFrame.start :: RFrame.tune t :: rest)).2 := by
  have hmk : mkTuneOk t =
      { channel_max := t.channel_max, frame_max := t.frame_max,
        heartbeat := t.heartbeat } := rfl
  rcases rest with _ | ⟨a, rest2⟩
  · simp [openHandshake, hmk]
  · rcases a <;> simp [openHandshake, hmk]

/-- CLAIM C6 (counterexample).  The claim says the handshake tolerates
`Connection.Secure` rounds between `StartOk` and `Tune`, replying
`SecureOk`.  On the input stream `Start, Secure, Tune, OpenOk` the code
instead fails with `ConnectionOpenError "tune"` and never writes a
`SecureOk` frame. -/
theorem C6_counterexample :
    (openHandshake [RFrame.start, RFrame.secure,
      RFrame.tune { channel_max := 2047, frame_max := 131072, heartbeat := 60 },
      RFrame.openOk]).1 = Except.error (Err.connectionOpenError "tune") ∧
    (openHandshake [RFrame.start, RFrame.secure,
      RFrame.tune { channel_max := 2047, frame_max := 131072, heartbeat := 60 },
      RFrame.openOk]).2 = [WFrame.protocolHeader, WFrame.startOk] :=
  ⟨rfl, rfl⟩

/-- CLAIM C6 (amended).  `Connection::open` tolerates exactly zero
`Connection.Secure` rounds: it never writes a `SecureOk` frame on any input
stream, and whenever the frame following `Start` is `Secure` the handshake
fails with `ConnectionOpenError "tune"`. -/
theorem C6_amended :
    (∀ input : List RFrame, WFrame.secureOk ∉ (openHandshake input).2) ∧
    (∀ rest : List RFrame,
      (openHandshake (RFrame.start :: RFrame.secure :: rest)).1 =
        Except.error (Err.connectionOpenError "tune")) := by
  constructor
  · intro input
    rcases input with _ |
        ⟨_ | _ | t1 | _ | _, _ |
          ⟨_ | _ | t2 | _ | _, _ | ⟨_ | _ | t3 | _ | _, rest3⟩⟩⟩ <;>
      simp [openHandshake]
  · intro rest
    rfl

/-- CLAIM C8 (counterexample).  The claim says dropping a handle that is not
the last clone does not initiate `Connection.Close`.  Dropping one of two
live handles of an open connection (one clone remains) already clears
`is_open` and spawns the detached close task. -/
theorem C8_counterexample :
    (dropClone openedState 2).2.1 = 1 ∧
    (dropClone openedState 2).2.2 = true ∧
    get_open_state (dropClone openedState 2).1 = false := by
  decide

/-- CLAIM C8 (amended).  `Drop` for `Connection` never inspects the clone
count: every drop of a handle whose shared `is_open` flag is true — whether
or not it is the last clone — clears the flag and spawns the detached close
task, and a drop while the flag is false spawns nothing.  In either case
the flag is false afterwards and the live-handle count decreases by one. -/
theorem C8_amended (s : ConnState) (n : Nat) :
    (dropClone s n).2.2 = s.is_open ∧
    (dropClone s n).1.is_open = false ∧
    (dropClone s n).2.1 = n - 1 := by
  cases h : s.is_open <;> simp [dropClone, dropHandle, h]

/-- CLAIM C2.  Whenever `open_channel` succeeds with channel id `c`, its
event trace registers the channel resource (index 0), receives the
allocation ack (index 1), has the `Channel.OpenOk` waiter acked (index 3),
and only then enqueues the `Channel.Open` frame (index 4); no frame is
enqueued at any earlier index.  The registry entry for `c` is present in
the resulting state. -/
theorem C2_registry_and_waiter_before_send (s : ConnState) (c : Nat)
    (h : (open_channel s).1 = Except.ok c) :
    (∃ r, (c, r) ∈ (open_channel s).2.1.channels) ∧
    (open_channel s).2.2.get? 0 =
      some (Ev.cmdRegisterResource none openChannelResource) ∧
    (open_channel s).2.2.get? 1 = some (Ev.ackResource (some c)) ∧
    (open_channel s).2.2.get? 3 =
      some (Ev.ackResponder c openChannelOkKey) ∧
    (open_channel s).2.2.get? 4 =
      some (Ev.sendFrame c WFrame.openChannel) ∧
    (∀ n cid f, (open_channel s).2.2.get? n = some (Ev.sendFrame cid f) →
      n = 4) := by
  rw [open_channel_spec] at h ⊢
  cases halive : s.runtime_alive
  · rw [halive] at h
    simp at h
  · rw [halive] at h
    cases halloc :
        allocChannelId (s.channels.map Prod.fst) s.next_id s.channel_max
    · rw [halloc] at h
      simp at h
    · rename_i c0
      rw [halloc] at h
      simp only [reduceIte, Except.ok.injEq] at h
      subst h
      refine ⟨?_, rfl, rfl, rfl, rfl, ?_⟩
      · refine ⟨{ responders := [openChannelOkKey], dispatcher := some () }, ?_⟩
        simp [attachResponder, openChannelResource]
      · intro n cid f hn
        rcases n with _ | _ | _ | _ | _ | _ | n
        · simp at hn
        · simp at hn
        · simp at hn
        · simp at hn
        · rfl
        · simp at hn
        · simp at hn

/-- CLAIM C2 (witness). -/
theorem C2_witness :
    (open_channel openedState).2.2.get? 0 =
      some (Ev.cmdRegisterResource none openChannelResource) ∧
    (open_channel openedState).2.2.get? 3 =
      some (Ev.ackResponder 1 openChannelOkKey) ∧
    (open_channel openedState).2.2.get? 4 =
      some (Ev.sendFrame 1 WFrame.openChannel) :=
  ⟨(C2_registry_and_waiter_before_send openedState 1 rfl).2.1,
   (C2_registry_and_waiter_before_send openedState 1 rfl).2.2.2.1,
   (C2_registry_and_waiter_before_send openedState 1 rfl).2.2.2.2.1⟩

/-- CLAIM C3 (counterexample).  After `close` has returned Ok on the opened
connection, `register_callback` does fail, but with the send-error kind of
the internal management queue, not with a `ConnectionClosed` error: the
façade performs no `is_open` check and merely propagates the failed send. -/
theorem C3_counterexample :
    (close openedState).1 = Except.ok () ∧
    (register_callback (close openedState).2.1).1 =
      Except.error (Err.sendError "conn_mgmt_tx") ∧
    isConnectionClosedErr (Err.sendError "conn_mgmt_tx") = false :=
  ⟨rfl, rfl, rfl⟩

/-- CLAIM C3 (amended).  After `close()` has returned Ok, every subsequent
façade call on the connection fails — `register_callback` and a second
`close` with the internal send error, `open_channel` with
`ChannelOpenError` — and none of these errors is of the `ConnectionClosed`
kind. -/
theorem C3_amended (s : ConnState) (h : (close s).1 = Except.ok ()) :
    (register_callback (close s).2.1).1 =
      Except.error (Err.sendError "conn_mgmt_tx") ∧
    (open_channel (close s).2.1).1 =
      Except.error (Err.channelOpenError "Failed to register channel resource") ∧
    (close (close s).2.1).1 = Except.error (Err.sendError "conn_mgmt_tx") ∧
    (∀ e, (register_callback (close s).2.1).1 = Except.error e →
      isConnectionClosedErr e = false) ∧
    (∀ e, (open_channel (close s).2.1).1 = Except.error e →
      isConnectionClosedErr e = false) ∧
    (∀ e, (close (close s).2.1).1 = Except.error e →
      isConnectionClosedErr e = false) := by
  have halive : s.runtime_alive = true := by
    rw [close_spec] at h
    cases ha : s.runtime_alive
    · rw [ha] at h
      simp at h
    · rfl
  have hdead : (close s).2.1.runtime_alive = false := by
    rw [close_spec, halive]
    rfl
  have h1 : (register_callback (close s).2.1).1 =
      Except.error (Err.sendError "conn_mgmt_tx") := by
    unfold register_callback
    rw [hdead]
    rfl
  have h2 : (open_channel (close s).2.1).1 =
      Except.error (Err.channelOpenError "Failed to register channel resource") := by
    rw [open_channel_spec, hdead]
    rfl
  have h3 : (close (close s).2.1).1 =
      Except.error (Err.sendError "conn_mgmt_tx") := by
    rw [close_spec, hdead]
    rfl
  refine ⟨h1, h2, h3, ?_, ?_, ?_⟩
  · intro e he
    rw [h1] at he
    cases Except.error.inj he
    rfl
  · intro e he
    rw [h2] at he
    cases Except.error.inj he
    rfl
  · intro e he
    rw [h3] at he
    cases Except.error.inj he
    rfl

/-- CLAIM C3 (witness). -/
theorem C3_witness :
    (register_callback (close openedState).2.1).1 =
      Except.error (Err.sendError "conn_mgmt_tx") :=
  (C3_amended openedState rfl).1

/-- CLAIM C4 (counterexample).  With `is_open` already false (and the
runtime still alive, as after a handle drop or `set_open_state`), `close`
does not return immediately: it still registers the `CloseOk` waiter and
still enqueues the `Connection.Close` frame. -/
theorem C4_counterexample :
    get_open_state droppedState = false ∧
    (close droppedState).1 = Except.ok () ∧
    Ev.cmdRegisterResponder 0 closeOkKey ∈ (close droppedState).2.2 ∧
    Ev.sendFrame 0 WFrame.close ∈ (close droppedState).2.2 :=
  ⟨rfl, rfl, by decide, by decide⟩

/-- CLAIM C4 (amended).  `close` performs no `is_open` check: whenever the
runtime is alive it registers the `CloseOk` waiter and sends the
`Connection.Close` frame regardless of the value of `is_open`, and when the
runtime has already shut down it fails with a send error rather than
returning Ok immediately. -/
theorem C4_amended (s : ConnState) :
    (s.runtime_alive = true →
      (close s).1 = Except.ok () ∧
      Ev.cmdRegisterResponder 0 closeOkKey ∈ (close s).2.2 ∧
      Ev.sendFrame 0 WFrame.close ∈ (close s).2.2) ∧
    (s.runtime_alive = false →
      (close s).1 = Except.error (Err.sendError "conn_mgmt_tx")) := by
  rw [close_spec]
  constructor
  · intro h
    rw [h]
    exact ⟨rfl, by simp, by simp⟩
  · intro h
    rw [h]
    rfl

/-- CLAIM C4 (witness). -/
theorem C4_witness :
    (close droppedState).1 = Except.ok () ∧
    Ev.cmdRegisterResponder 0 closeOkKey ∈ (close droppedState).2.2 ∧
    Ev.sendFrame 0 WFrame.close ∈ (close droppedState).2.2 :=
  (C4_amended droppedState).1 rfl

/-- CLAIM C5 (counterexample).  On a registry holding `channel_max` user
channels, `open_channel` fails, but the error is
`ChannelOpenError "Failed to register channel resource"`, not a
`NoFreeChannel` error: no such error kind is ever constructed by the
code. -/
theorem C5_counterexample :
    (open_channel fullState).1 =
      Except.error (Err.channelOpenError "Failed to register channel resource") ∧
    isNoFreeChannelResult (open_channel fullState).1 = false :=
  ⟨rfl, rfl⟩

/-- CLAIM C5 (amended).  While the runtime is alive (and the allocation
hint is within `1..=channel_max`), `open_channel` fails with
`ChannelOpenError "Failed to register channel resource"` exactly when every
channel id in `1..=channel_max` is already registered, i.e. when channel-id
allocation finds no free slot. -/
theorem C5_amended (s : ConnState) (halive : s.runtime_alive = true)
    (h1 : 1 ≤ s.next_id) (h2 : s.next_id ≤ s.channel_max) :
    (open_channel s).1 =
        Except.error (Err.channelOpenError "Failed to register channel resource") ↔
      ∀ i ∈ Finset.Icc 1 s.channel_max, i ∈ s.channels.map Prod.fst := by
  rw [open_channel_fst s halive,
    ← allocChannelId_eq_none_iff (s.channels.map Prod.fst) s.next_id
      s.channel_max h1 h2]
  cases halloc :
      allocChannelId (s.channels.map Prod.fst) s.next_id s.channel_max <;>
    simp

/-- CLAIM C5 (witness). -/
theorem C5_witness :
    (open_channel fullState).1 =
      Except.error (Err.channelOpenError "Failed to register channel resource") :=
  (C5_amended fullState rfl (by decide) (by decide)).mpr (by decide)

/-- CLAIM C7 (counterexample).  The public method `set_open_state` can set
`is_open` back to true on a connection whose flag is false, so the
true→false transition is not permanent under the public interface. -/
theorem C7_counterexample :
    get_open_state droppedState = false ∧
    get_open_state (set_open_state droppedState true) = true :=
  ⟨rfl, rfl⟩

/-- CLAIM C7 (amended).  Once `is_open` is false it stays false under
`close`, `open_channel`, `register_callback`, `register_responder` and a
handle drop; the one exception in the public interface is `set_open_state`,
which stores an arbitrary boolean and can set the flag back to true. -/
theorem C7_amended (s : ConnState) (cid : Nat) (k : MethodKey)
    (h : s.is_open = false) :
    (close s).2.1.is_open = false ∧
    (open_channel s).2.1.is_open = false ∧
    (register_callback s).2.1.is_open = false ∧
    (register_responder s cid k).2.1.is_open = false ∧
    (dropHandle s).1.is_open = false ∧
    get_open_state (set_open_state s true) = true := by
  refine ⟨?_, ?_, ?_, ?_, ?_, rfl⟩
  · rw [close_spec]
    cases ha : s.runtime_alive <;> simp [h]
  · rw [open_channel_is_open]
    exact h
  · unfold register_callback
    cases ha : s.runtime_alive <;> simp [h]
  · unfold register_responder
    cases ha : s.runtime_alive <;> simp [h]
  · unfold dropHandle
    simp [h]

/-- CLAIM C7 (witness). -/
theorem C7_witness :
    (close droppedState).2.1.is_open = false ∧
    (open_channel droppedState).2.1.is_open = false ∧
    (register_callback droppedState).2.1.is_open = false ∧
    (register_responder droppedState 0 closeOkKey).2.1.is_open = false ∧
    (dropHandle droppedState).1.is_open = false ∧
    get_open_state (set_open_state droppedState true) = true :=
  C7_amended droppedState 0 closeOkKey rfl

/-- CLAIM C9.  A successful `Connection::open` leaves exactly channel 0
registered, with an empty waiter map and no dispatcher; every resource
`open_channel` registers carries a dispatcher; and the invariant that a
dispatcher-less resource can only sit at channel 0 is preserved by
`open_channel` and by `close`. -/
theorem C9_channel_zero_only_dispatcherless :
    (∀ cm s, openConn cm = Except.ok s →
      s.channels = [(0, defaultChannelResource)] ∧ dispNoneOnlyZero s) ∧
    (∀ s cid r, Ev.cmdRegisterResource cid r ∈ (open_channel s).2.2 →
      r.dispatcher = some ()) ∧
    (∀ s, dispNoneOnlyZero s → dispNoneOnlyZero (open_channel s).2.1) ∧
    (∀ s, dispNoneOnlyZero s → dispNoneOnlyZero (close s).2.1) := by
  refine ⟨?_, ?_, ?_, ?_⟩
  · intro cm s h
    rw [openConn_eq] at h
    rcases Except.ok.inj h with rfl
    constructor
    · rfl
    · intro c r hmem _
      have heq := List.mem_singleton.1 hmem
      exact congrArg Prod.fst heq
  · intro s cid r hmem
    rw [open_channel_spec] at hmem
    cases ha : s.runtime_alive
    · rw [ha] at hmem
      simp at hmem
    · rw [ha] at hmem
      cases halloc :
          allocChannelId (s.channels.map Prod.fst) s.next_id s.channel_max
      · rw [halloc] at hmem
        simp at hmem
        rw [hmem.2]
        rfl
      · rw [halloc] at hmem
        simp at hmem
        rw [hmem.2]
        rfl
  · intro s hinv
    rw [open_channel_spec]
    cases ha : s.runtime_alive
    · simpa using hinv
    · cases halloc :
          allocChannelId (s.channels.map Prod.fst) s.next_id s.channel_max
      · simpa using hinv
      · rename_i c0
        show dispNoneOnlyZero
          { s with
            channels :=
              attachResponder ((c0, openChannelResource) :: s.channels) c0
                openChannelOkKey,
            next_id := nextIdAfter c0 s.channel_max }
        intro c r hmem hdisp
        rcases mem_attachResponder _ _ _ _ _ hmem with ⟨r0, hr0, hdisp0⟩
        rcases List.mem_cons.1 hr0 with hhead | htail
        · have hr0eq : r0 = openChannelResource := congrArg Prod.snd hhead
          rw [hr0eq] at hdisp0
          rw [hdisp0] at hdisp
          exact absurd hdisp (by simp [openChannelResource])
        · rw [hdisp0] at hdisp
          exact hinv c r0 htail hdisp
  · intro s hinv
    rw [close_spec]
    cases ha : s.runtime_alive
    · simpa using hinv
    · show dispNoneOnlyZero
        { s with channels := attachResponder s.channels 0 closeOkKey,
                 is_open := false, runtime_alive := false }
      intro c r hmem hdisp
      rcases mem_attachResponder _ _ _ _ _ hmem with ⟨r0, hr0, hdisp0⟩
      rw [hdisp0] at hdisp
      exact hinv c r0 hr0 hdisp

/-- CLAIM C9 (witness). -/
theorem C9_witness :
    openedState.channels = [(0, defaultChannelResource)] :=
  (C9_channel_zero_only_dispatcherless.1 2047 openedState rfl).1

/-- CLAIM C10.  Over any sequence of handle drops performed one after
another on the shared state, at most one drop spawns a detached close task;
and once a drop has spawned the task (which requires `is_open` to have been
true), `get_open_state` reads false on every remaining clone, however many
further drops follow. -/
theorem C10_at_most_one_spawned_close (n : Nat) (s : ConnState) :
    (dropAll n s).2 ≤ 1 ∧
    ((dropHandle s).2 = true →
      (dropAll n (dropHandle s).1).2 = 0 ∧
      get_open_state (dropAll n (dropHandle s).1).1 = false) := by
  have hfalse1 : ∀ t : ConnState, t.is_open = false →
      (dropAll n t).2 = 0 ∧ get_open_state (dropAll n t).1 = false := by
    intro t ht
    cases n with
    | zero => exact ⟨rfl, ht⟩
    | succ m =>
      rw [dropAll_succ]
      simp [ht, get_open_state]
  constructor
  · cases n with
    | zero => simp [dropAll]
    | succ m =>
      rw [dropAll_succ]
      cases s.is_open <;> simp
  · intro hsp
    have ht : (dropHandle s).1.is_open = false := by
      unfold dropHandle at hsp ⊢
      cases h : s.is_open
      · rw [h] at hsp
        simp at hsp
      · rfl
    exact hfalse1 (dropHandle s).1 ht

/-- CLAIM C10 (witness). -/
theorem C10_witness :
    (dropAll 2 (dropHandle openedState).1).2 = 0 ∧
    get_open_state (dropAll 2 (dropHandle openedState).1).1 = false :=
  (C10_at_most_one_spawned_close 2 openedState).2 rfl

end Amqprs
